import Mathlib

/-!
# DMS-Toolbox — verification of the cartridge/device transfer layer

Shallow embedding of `MainFrame` (gui/mainframe.cc) of the DMS-Toolbox
repository, together with spec-modelled definitions for the parts of the
Wersi core (cartridge codec, device read transaction) whose sources are not
in the excerpt.  Machine integers are modelled as `Nat` with explicit
`% 256` where `uint8_t` overflow matters; C++ exceptions are modelled as
`Except`; resource handling (new/delete of buffers and stores) is modelled
as an explicit event trace.
-/

namespace DMSToolbox

/-- The error taxonomy of `exceptions.hh`: `DataFormatException`,
`ConfigurationException`, `SystemException`, each carrying a message. -/
inductive Error where
  | dataFormat (msg : String)
  | configuration (msg : String)
  | system (msg : String)
deriving DecidableEq, Repr

/-- `true` exactly on the `error` constructor of `Except`. -/
def isError {ε α : Type} : Except ε α → Bool
  | .error _ => true
  | .ok _ => false

/-- Resource / control events emitted by the embedding of
`MainFrame::readCartridgeFile`: buffer allocation (`new char[size]`) and
release (`delete[] buffer`), attempts to construct each cartridge layout,
store construction and destruction, and registration of the finished store
in `m_instrumentStores`. -/
inductive Event where
  | allocBuffer
  | freeBuffer
  | tryMk1
  | tryDx10
  | allocStore
  | freeStore
  | register
deriving DecidableEq, Repr

/-- Result of one call to `readCartridgeFile`: the C++ return-or-throw
outcome plus the trace of resource events the call performed. -/
structure Outcome (σ : Type) where
  result : Except Error σ
  events : List Event

/--
Embedding of `MainFrame::readCartridgeFile` (gui/mainframe.cc lines
452–520).  The two cartridge constructors `Mk1Cartridge` and
`Dx10Cartridge` are not part of the excerpt, so they are parameters
`mk1 dx10 : List Nat → Except Error σ`; an `Except.error` models the
constructor throwing.  `fileExists` models `wxFile::Exists`, `streamOk`
models `fileStream.IsOk()`, `size` the file length, `lastRead` the number
of bytes `fileStream.Read` actually delivered, `buf` the buffer contents.

Control flow mirrors the source exactly:
* missing file → `SystemException`;
* `size != 8192 && size != 16384` → `DataFormatException` (before any
  buffer is allocated or layout tried);
* bad stream → `SystemException`;
* otherwise a buffer is allocated and the body runs under `try`: a short
  read throws `DataFormatException`; the `Mk1Cartridge` constructor is
  tried first, with only `DataFormatException` caught and ignored; then
  `Dx10Cartridge` the same way; if both failed with data-format errors,
  `DataFormatException "Unknown cartridge format"` is thrown; the
  `catch (...)` handler deletes the store (if any) and the buffer and
  rethrows.  On success the store (owning the buffer) is registered.
-/
def readCartridgeFile {σ : Type} (mk1 dx10 : List Nat → Except Error σ)
    (fileExists streamOk : Bool) (size lastRead : Nat) (buf : List Nat) :
    Outcome σ :=
  if fileExists = false then
    ⟨.error (.system "File does not exist"), []⟩
  else if size ≠ 8192 ∧ size ≠ 16384 then
    ⟨.error (.dataFormat "Invalid file size (must be 8 or 16 KB)"), []⟩
  else if streamOk = false then
    ⟨.error (.system "Unable to open file"), []⟩
  else if lastRead ≠ size then
    ⟨.error (.dataFormat "Could not read whole cartridge data"),
     [.allocBuffer, .freeBuffer]⟩
  else
    match mk1 buf with
    | .ok s =>
        ⟨.ok s, [.allocBuffer, .tryMk1, .allocStore, .register]⟩
    | .error (.dataFormat _) =>
        match dx10 buf with
        | .ok s =>
            ⟨.ok s, [.allocBuffer, .tryMk1, .tryDx10, .allocStore, .register]⟩
        | .error (.dataFormat _) =>
            ⟨.error (.dataFormat "Unknown cartridge format"),
             [.allocBuffer, .tryMk1, .tryDx10, .freeBuffer]⟩
        | .error e =>
            ⟨.error e, [.allocBuffer, .tryMk1, .tryDx10, .freeBuffer]⟩
    | .error e =>
        ⟨.error e, [.allocBuffer, .tryMk1, .freeBuffer]⟩

/-- One framed SysEx message sent by `MainFrame::writeDevice`: `SysEx::sendIcb`,
`sendVcf`, `sendAmpl`, `sendFreq` or `sendWave`, carrying the device type, the
device address byte and the block payload (payload types `ι` for ICBs and `β`
for the other blocks are abstract, as `wersi/` is not part of the excerpt). -/
inductive Msg (ι β : Type) where
  | icb (devType addr : Nat) (data : ι)
  | vcf (devType addr : Nat) (data : β)
  | ampl (devType addr : Nat) (data : β)
  | freq (devType addr : Nat) (data : β)
  | wave (devType addr : Nat) (data : β)
deriving DecidableEq, Repr

/-- The slice of an `InstrumentStore` that `MainFrame::writeDevice` consumes:
the ordered ICB iteration (`for (auto& i : *(store.m_store))`, pairs of slot
byte and ICB) and the four block lookups `getVcf`/`getAmpl`/`getFreq`/`getWave`
(returning null for an unset block). -/
structure DeviceStore (ι β : Type) where
  icbs : List (Nat × ι)
  getVcf : Nat → Option β
  getAmpl : Nat → Option β
  getFreq : Nat → Option β
  getWave : Nat → Option β

/-- The ICB loop of `MainFrame::writeDevice` (lines 675–681): sends one ICB
message per store entry while computing the `uint8_t offset` register, which
starts at 0 and, while still 0, is set to `i.first - 1` (uint8 arithmetic,
i.e. `(slot + 255) % 256`). Returns the messages and the final offset. -/
def icbStep {ι β : Type} (devType : Nat) (acc : List (Msg ι β) × Nat)
    (p : Nat × ι) : List (Msg ι β) × Nat :=
  (acc.1 ++ [Msg.icb devType p.1 p.2],
   if acc.2 = 0 then (p.1 + 255) % 256 else acc.2)

/-- The full ICB loop: fold `icbStep` over the store's ICB iteration,
starting from no messages and offset 0. -/
def sendIcbs {ι β : Type} (devType : Nat) (icbs : List (Nat × ι)) :
    List (Msg ι β) × Nat :=
  icbs.foldl (icbStep devType) ([], 0)

/-- A C++ `for (size_t i = 0; i < n; ++i)` loop whose body sends at most one
message per iteration: messages accumulate in order, nothing is emitted when
the body yields `none` (the block pointer was null). -/
def forLoop {μ : Type} (n : Nat) (body : Nat → Option μ) : List μ :=
  (List.range n).foldl
    (fun acc i =>
      match body i with
      | some m => acc ++ [m]
      | none => acc)
    []

/-- The address computation of the VCF loop of `MainFrame::writeDevice`:
`uint8_t addr = i + offset;`. -/
def vcfAddr (offset i : Nat) : Nat :=
  (i + offset) % 256

/-- The address computation of the AMPL/FREQ/WAVE loops of
`MainFrame::writeDevice`: `uint8_t addr = i + offset; if (i >= 10) ++addr;`. -/
def blockAddr (offset i : Nat) : Nat :=
  let a := (i + offset) % 256
  if 10 ≤ i then (a + 1) % 256 else a

/-- Embedding of `MainFrame::writeDevice` (gui/mainframe.cc lines 671–727):
all ICBs are sent first (computing the address offset on the way), then the
VCF loop probes 10 addresses `i + offset`, then the AMPL, FREQ and WAVE loops
each probe 20 addresses `blockAddr offset i`; a message is sent only when the
corresponding block lookup is non-null. -/
def writeDevice {ι β : Type} (s : DeviceStore ι β) (devType : Nat) :
    List (Msg ι β) :=
  let si := sendIcbs devType s.icbs
  let offset := si.2
  si.1
  ++ forLoop 10 (fun i =>
        let addr := vcfAddr offset i
        (s.getVcf addr).map (Msg.vcf devType addr))
  ++ forLoop 20 (fun i =>
        let addr := blockAddr offset i
        (s.getAmpl addr).map (Msg.ampl devType addr))
  ++ forLoop 20 (fun i =>
        let addr := blockAddr offset i
        (s.getFreq addr).map (Msg.freq devType addr))
  ++ forLoop 20 (fun i =>
        let addr := blockAddr offset i
        (s.getWave addr).map (Msg.wave devType addr))

/-- The first non-zero value of `(slot - 1) % 256` over the ICB slots in
iteration order, 0 if there is none.  This is the closed form of the offset
register computed by `sendIcbs` (the register keeps being overwritten while
it is still 0, so slots equal to 1 are passed over). -/
def firstNonzeroOffset : List Nat → Nat
  | [] => 0
  | s :: rest =>
      if (s + 255) % 256 = 0 then firstNonzeroOffset rest
      else (s + 255) % 256

/-- The offset as the specification words it: derived from the lowest
non-zero ICB slot seen while iterating, that is, the minimum of the non-zero
slots, minus one (0 when there is no non-zero slot). -/
def claimOffset (slots : List Nat) : Nat :=
  match slots.filter (fun s => decide (s ≠ 0)) with
  | [] => 0
  | s :: rest => rest.foldl min s - 1

/-- The device configuration values `MainFrame::createDevices` extracts for
one configured device: MIDI channel and device-generation type. -/
structure DeviceCfg where
  channel : Nat
  devType : Nat
deriving DecidableEq, Repr

/-- Whether a configured MIDI channel value read from the configuration is
present and in range 1–16 (`m_config.Read(wxT("Channel"), &tmp)` succeeding
with `1 <= tmp && tmp <= 16`); `none` models a failed read. -/
def channelValid : Option Int → Bool
  | none => false
  | some c => decide (1 ≤ c ∧ c ≤ 16)

/-- Whether a configured device-generation type value is present and in
range 1–2. -/
def typeValid : Option Int → Bool
  | none => false
  | some t => decide (1 ≤ t ∧ t ≤ 2)

/-- Embedding of the per-device body of `MainFrame::createDevices`
(gui/mainframe.cc lines 357–421), reduced to its externally visible outcome:
either a registered device store with its channel/type configuration, or the
`ConfigurationException` thrown.  `inPortFound`/`outPortFound` model whether
the configured port names match an available MIDI port.  The `Dx10Device`
object allocated at line 366 before validation is destroyed by the catch
handler (lines 424–429) on every failing path, so no store survives a
failure; this embedding therefore returns a store only on the success path.
Checks appear in source order: input port, output port, channel (missing or
out of 1–16 throws), type (missing or out of 1–2 throws); `uint8_t` casts
are `% 256`. -/
def createDevice (inPortFound outPortFound : Bool) (channel ty : Option Int) :
    Except Error DeviceCfg :=
  if inPortFound = false then
    .error (.configuration "MIDI input port not found")
  else if outPortFound = false then
    .error (.configuration "MIDI output port not found")
  else if channelValid channel = false then
    .error (.configuration "Invalid value for MIDI channel")
  else if typeValid ty = false then
    .error (.configuration "Invalid value for device type")
  else
    match channel, ty with
    | some c, some t => .ok ⟨c.toNat % 256, t.toNat % 256⟩
    | _, _ => .error (.configuration "Invalid value for MIDI channel")

/-- Embedding of `MainFrame::updateProgress` (gui/mainframe.cc lines
738–746): the opaque context pointer is cast to a progress dialog; a null
pointer (`none`) yields `false` without any dereference, otherwise
`progDlg->Update(current)` decides the result (the dialog is modelled by its
`Update` function; `max` is ignored, as in the source). -/
def updateProgress (object : Option (Nat → Bool)) (current : Nat)
    (_maxUnits : Nat) : Bool :=
  match object with
  | some update => update current
  | none => false

/-- Modelled from the spec: the accumulation loop of
`InstrumentStore::readFromDevice` (class `Dx10Device` of `wersi/`, not part
of the excerpt).  Per §4.4 the read transaction accumulates incoming framed
messages one unit at a time; after each unit the progress callback is
invoked with `(unitsCompleted, unitsTotal)` and a `false` return aborts the
transaction early, leaving exactly the already-applied blocks in the store.
`frames` is the inbound frame sequence, `done` the units completed so far
and `acc` the blocks applied so far. -/
def readLoop {φ : Type} (cb : Nat → Nat → Bool) (total : Nat) :
    List φ → Nat → List φ → List φ
  | [], _, acc => acc
  | f :: rest, done, acc =>
      let acc' := acc ++ [f]
      if cb (done + 1) total then readLoop cb total rest (done + 1) acc'
      else acc'

/-- Modelled from the spec: `readFromDevice` applied to a fresh store —
process the inbound frames from an empty block accumulation. -/
def readFromDevice {φ : Type} (frames : List φ) (cb : Nat → Nat → Bool)
    (total : Nat) : List φ :=
  readLoop cb total frames 0 []

/-! ## Spec-modelled cartridge codec

The concrete cartridge codecs (`Mk1Cartridge`, `Dx10Cartridge` in `wersi/`)
are not part of the excerpt.  The definitions below model a codec from the
spec's words (§3, §4.2, §6): a store holds ICBs — each a fixed-length padded
name plus three block references — and fixed-size numeric amplitude,
frequency and waveform blocks; `encode` serialises them at fixed offsets and
appends a recomputed structural checksum byte; `decode` validates the image
length and the checksum and slices the image back into blocks.  The spec
leaves the exact offsets and checksum algorithm open (§9), so concrete small
values are chosen: 10 ICB slots with 6-byte names, 10 blocks of each kind
with sizes 4/4/8, and a trailing sum-mod-256 checksum. -/

/-- Modelled from the spec: an Instrument Control Block — a fixed-length
padded display name and three references (by slot index) to an amplitude,
a frequency and a waveform block (§3). -/
structure Icb where
  name : List Nat
  amplRef : Nat
  freqRef : Nat
  waveRef : Nat
deriving DecidableEq, Repr

/-- Modelled from the spec: a cartridge-backed instrument store — the ICBs
in slot order plus the owned amplitude/frequency/waveform block contents
(§3). -/
structure CartStore where
  icbs : List Icb
  ampls : List (List Nat)
  freqs : List (List Nat)
  waves : List (List Nat)
deriving DecidableEq, Repr

/-- Serialisation of one ICB: the 6 name bytes followed by the three
reference bytes (9 bytes in all). -/
def encodeIcb (i : Icb) : List Nat :=
  i.name ++ [i.amplRef, i.freqRef, i.waveRef]

/-- The serialised ICB region: all slots in order. -/
def encodeIcbs (l : List Icb) : List Nat :=
  (l.map encodeIcb).flatten

/-- The serialised payload of a cartridge image: ICB region, then the
amplitude, frequency and waveform block regions at fixed offsets. -/
def encodePayload (s : CartStore) : List Nat :=
  encodeIcbs s.icbs ++ (s.ampls.flatten ++ (s.freqs.flatten ++ s.waves.flatten))

/-- Modelled from the spec: `encode(store) -> buffer` — the payload followed
by the recomputed structural checksum byte (§4.2). -/
def encode (s : CartStore) : List Nat :=
  encodePayload s ++ [(encodePayload s).sum % 256]

/-- Split a byte region into `n` chunks of `sz` bytes each. -/
def chunks (sz : Nat) : Nat → List Nat → List (List Nat)
  | 0, _ => []
  | n + 1, bytes => bytes.take sz :: chunks sz n (bytes.drop sz)

/-- Parse one 9-byte ICB slot back into an ICB. -/
def decodeIcb (bytes : List Nat) : Icb :=
  { name := bytes.take 6
    amplRef := bytes.getD 6 0
    freqRef := bytes.getD 7 0
    waveRef := bytes.getD 8 0 }

/-- Total serialised image size: 10·9 ICB bytes, 10·4 + 10·4 + 10·8 block
bytes, one checksum byte. -/
def imageSize : Nat := 90 + 40 + 40 + 80 + 1

/-- Modelled from the spec: `decode(buffer) -> InstrumentStore` — fails with
a DataFormat error if the image has the wrong length or its structural
checksum does not match, otherwise slices the fixed-offset regions back into
the store (§4.2). -/
def decode (b : List Nat) : Except Error CartStore :=
  if b.length = imageSize then
    if (b.drop (imageSize - 1)).headD 0 = (b.take (imageSize - 1)).sum % 256 then
      .ok
        { icbs := (chunks 9 10 (b.take 90)).map decodeIcb
          ampls := chunks 4 10 ((b.drop 90).take 40)
          freqs := chunks 4 10 (((b.drop 90).drop 40).take 40)
          waves := chunks 8 10 ((((b.drop 90).drop 40).drop 40).take 80) }
    else .error (.dataFormat "Cartridge checksum mismatch")
  else .error (.dataFormat "Invalid cartridge image size")

/-- A block region is valid when it has exactly `cnt` blocks of `sz` bytes
each, all byte-ranged. -/
def ValidBlocks (sz cnt : Nat) (l : List (List Nat)) : Prop :=
  l.length = cnt ∧ ∀ blk ∈ l, blk.length = sz ∧ ∀ v ∈ blk, v < 256

instance (sz cnt : Nat) (l : List (List Nat)) :
    Decidable (ValidBlocks sz cnt l) := by
  unfold ValidBlocks; infer_instance

/-- A store is valid (producible by the codec) when it has exactly 10 ICBs
with 6-byte byte-ranged names and byte-ranged references, and valid block
regions of the fixed counts and sizes. -/
def ValidStore (s : CartStore) : Prop :=
  s.icbs.length = 10 ∧
  (∀ i ∈ s.icbs,
    i.name.length = 6 ∧ (∀ v ∈ i.name, v < 256) ∧
    i.amplRef < 256 ∧ i.freqRef < 256 ∧ i.waveRef < 256) ∧
  ValidBlocks 4 10 s.ampls ∧ ValidBlocks 4 10 s.freqs ∧
  ValidBlocks 8 10 s.waves

instance (s : CartStore) : Decidable (ValidStore s) := by
  unfold ValidStore; infer_instance

/-! ## Theorems -/

/-- C10: for every invocation of the progress callback with a null context
pointer, `updateProgress` returns `false` (requesting cancellation) without
dereferencing the pointer, for any values of `unitsCompleted` and
`unitsTotal`. -/
theorem null_context_requests_cancel (current max : Nat) :
    updateProgress none current max = false := rfl

/-- C8: device setup fails with a Configuration error when the configured
MIDI channel is outside 1–16 or the device-generation type is outside
{1, 2} (or either value is missing); a device store is created (survives
setup) only when both values are in range. -/
theorem device_config_validation (inPortFound outPortFound : Bool)
    (channel ty : Option Int) :
    ((channelValid channel = false ∨ typeValid ty = false) →
      ∃ m, createDevice inPortFound outPortFound channel ty =
        .error (.configuration m)) ∧
    (∀ cfg, createDevice inPortFound outPortFound channel ty = .ok cfg →
      channelValid channel = true ∧ typeValid ty = true) := by
  unfold createDevice
  by_cases hin : inPortFound = false
  · simp [hin]
  · by_cases hout : outPortFound = false
    · simp [hin, hout]
    · by_cases hch : channelValid channel = false
      · simp [hin, hout, hch]
      · by_cases hty : typeValid ty = false
        · simp [hin, hout, hch, hty]
        · constructor
          · intro hbad
            rcases hbad with hbad | hbad
            · exact absurd hbad hch
            · exact absurd hbad hty
          · intro cfg _
            exact ⟨by simpa using hch, by simpa using hty⟩

/-- Witness for C8 at a concrete out-of-range channel value. -/
theorem device_config_validation_witness :
    channelValid (some 0) = false ∧
    ∃ m, createDevice true true (some 0) (some 1) =
      .error (.configuration m) :=
  ⟨by decide,
   (device_config_validation true true (some 0) (some 1)).1
     (Or.inl (by decide))⟩

/-- C2: for every cartridge buffer whose length is not exactly 8192 or
16384 bytes, decoding fails with a DataFormat error before any layout is
tried (the event trace is empty: no buffer allocated, no layout attempted,
no store registered). -/
theorem size_rejection {σ : Type} (mk1 dx10 : List Nat → Except Error σ)
    (streamOk : Bool) (size lastRead : Nat) (buf : List Nat)
    (h1 : size ≠ 8192) (h2 : size ≠ 16384) :
    readCartridgeFile mk1 dx10 true streamOk size lastRead buf =
      ⟨.error (.dataFormat "Invalid file size (must be 8 or 16 KB)"), []⟩ := by
  unfold readCartridgeFile
  simp [h1, h2]

/-- Witness for C2 at a concrete invalid size. -/
theorem size_rejection_witness :
    (100 ≠ 8192) ∧
    readCartridgeFile (σ := Unit) (fun _ => .ok ()) (fun _ => .ok ())
        true true 100 100 [] =
      ⟨.error (.dataFormat "Invalid file size (must be 8 or 16 KB)"), []⟩ :=
  ⟨by decide,
   size_rejection (fun _ => .ok ()) (fun _ => .ok ()) true 100 100 []
     (by decide) (by decide)⟩

/-- C1: for every input buffer of valid size (with a readable file and
stream and a complete read), decoding attempts the layouts in fixed
priority order — Mk1 first, then Dx10; the first layout that validates is
the result (when Mk1 succeeds, Dx10 is never attempted); only DataFormat
failures cause fallback (any other error from the Mk1 constructor
propagates without trying Dx10); and when no layout validates the call
fails with the "Unknown cartridge format" DataFormat error and registers
no store. -/
theorem layout_sniffing_order {σ : Type}
    (mk1 dx10 : List Nat → Except Error σ) (size : Nat) (buf : List Nat)
    (hs : size = 8192 ∨ size = 16384) :
    (∀ s, mk1 buf = .ok s →
      readCartridgeFile mk1 dx10 true true size size buf =
        ⟨.ok s, [.allocBuffer, .tryMk1, .allocStore, .register]⟩) ∧
    (∀ m s, mk1 buf = .error (.dataFormat m) → dx10 buf = .ok s →
      readCartridgeFile mk1 dx10 true true size size buf =
        ⟨.ok s, [.allocBuffer, .tryMk1, .tryDx10, .allocStore, .register]⟩) ∧
    (∀ m m', mk1 buf = .error (.dataFormat m) →
      dx10 buf = .error (.dataFormat m') →
      readCartridgeFile mk1 dx10 true true size size buf =
        ⟨.error (.dataFormat "Unknown cartridge format"),
         [.allocBuffer, .tryMk1, .tryDx10, .freeBuffer]⟩) ∧
    (∀ e, mk1 buf = .error e → (∀ m, e ≠ .dataFormat m) →
      readCartridgeFile mk1 dx10 true true size size buf =
        ⟨.error e, [.allocBuffer, .tryMk1, .freeBuffer]⟩) := by
  have hsz : ¬(size ≠ 8192 ∧ size ≠ 16384) := by
    rcases hs with h | h <;> simp [h]
  refine ⟨?_, ?_, ?_, ?_⟩
  · intro s hmk
    unfold readCartridgeFile
    simp [hsz, hmk]
  · intro m s hmk hdx
    unfold readCartridgeFile
    simp [hsz, hmk, hdx]
  · intro m m' hmk hdx
    unfold readCartridgeFile
    simp [hsz, hmk, hdx]
  · intro e hmk hne
    unfold readCartridgeFile
    cases e with
    | dataFormat m => exact absurd rfl (hne m)
    | configuration m => simp [hsz, hmk]
    | system m => simp [hsz, hmk]

/-- Witness for C1: a concrete buffer rejected by Mk1 with a DataFormat
error and accepted by Dx10 decodes as Dx10, having tried Mk1 first. -/
theorem layout_sniffing_order_witness :
    readCartridgeFile (σ := Nat)
        (fun _ => .error (.dataFormat "bad header"))
        (fun _ => .ok 7) true true 8192 8192 [] =
      ⟨.ok 7, [.allocBuffer, .tryMk1, .tryDx10, .allocStore, .register]⟩ :=
  (layout_sniffing_order
    (fun _ => .error (.dataFormat "bad header")) (fun _ => .ok 7)
    8192 [] (Or.inl rfl)).2.1 "bad header" 7 rfl rfl

/-- C6: on every failing path of cartridge decoding (missing file, bad
size, bad stream, short read, no layout validating, or any error
propagating mid-decode), any allocated buffer has been released and every
constructed store destroyed before the error propagates, and no store is
registered in the store collection. -/
theorem failure_path_cleanup {σ : Type}
    (mk1 dx10 : List Nat → Except Error σ) (fileExists streamOk : Bool)
    (size lastRead : Nat) (buf : List Nat)
    (h : isError
      (readCartridgeFile mk1 dx10 fileExists streamOk size lastRead buf).result
        = true) :
    (Event.allocBuffer ∈
        (readCartridgeFile mk1 dx10 fileExists streamOk size lastRead buf).events →
      Event.freeBuffer ∈
        (readCartridgeFile mk1 dx10 fileExists streamOk size lastRead buf).events) ∧
    (readCartridgeFile mk1 dx10 fileExists streamOk size lastRead buf).events.count
        Event.allocStore =
      (readCartridgeFile mk1 dx10 fileExists streamOk size lastRead buf).events.count
        Event.freeStore ∧
    Event.register ∉
      (readCartridgeFile mk1 dx10 fileExists streamOk size lastRead buf).events := by
  unfold readCartridgeFile at h ⊢
  by_cases hfe : fileExists = false
  · simp [hfe]
  · by_cases hsz : size ≠ 8192 ∧ size ≠ 16384
    · simp [hfe, hsz]
    · by_cases hso : streamOk = false
      · simp [hfe, hsz, hso]
      · by_cases hlr : lastRead ≠ size
        · simp [hfe, hsz, hso, hlr]
        · simp only [hfe, hsz, hso, hlr, if_false, if_neg] at h ⊢
          cases hmk : mk1 buf with
          | ok s => simp [hmk, isError] at h
          | error e =>
            cases e with
            | dataFormat m =>
              cases hdx : dx10 buf with
              | ok s => simp [hmk, hdx, isError] at h
              | error e' =>
                cases e' <;> simp [hmk, hdx]
            | configuration m => simp [hmk]
            | system m => simp [hmk]

/-- Witness for C6 on the "unknown cartridge format" failing path. -/
theorem failure_path_cleanup_witness :
    isError
      (readCartridgeFile (σ := Nat)
        (fun _ => .error (.dataFormat "a")) (fun _ => .error (.dataFormat "b"))
        true true 8192 8192 []).result = true ∧
    (Event.allocBuffer ∈
        (readCartridgeFile (σ := Nat)
          (fun _ => .error (.dataFormat "a")) (fun _ => .error (.dataFormat "b"))
          true true 8192 8192 []).events →
      Event.freeBuffer ∈
        (readCartridgeFile (σ := Nat)
          (fun _ => .error (.dataFormat "a")) (fun _ => .error (.dataFormat "b"))
          true true 8192 8192 []).events) ∧
    (readCartridgeFile (σ := Nat)
        (fun _ => .error (.dataFormat "a")) (fun _ => .error (.dataFormat "b"))
        true true 8192 8192 []).events.count Event.allocStore =
      (readCartridgeFile (σ := Nat)
        (fun _ => .error (.dataFormat "a")) (fun _ => .error (.dataFormat "b"))
        true true 8192 8192 []).events.count Event.freeStore ∧
    Event.register ∉
      (readCartridgeFile (σ := Nat)
        (fun _ => .error (.dataFormat "a")) (fun _ => .error (.dataFormat "b"))
        true true 8192 8192 []).events :=
  ⟨by decide,
   failure_path_cleanup
     (fun _ => .error (.dataFormat "a")) (fun _ => .error (.dataFormat "b"))
     true true 8192 8192 [] (by decide)⟩

/-- The message component of the ICB loop fold: one ICB message per store
entry, appended in iteration order after any already accumulated
messages. -/
lemma foldl_icbStep_fst {ι β : Type} (t : Nat) (l : List (Nat × ι)) :
    ∀ (msgs : List (Msg ι β)) (off : Nat),
      (List.foldl (icbStep t) (msgs, off) l).1 =
        msgs ++ l.map (fun p => Msg.icb t p.1 p.2) := by
  induction l with
  | nil => intro msgs off; simp
  | cons p l ih =>
      intro msgs off
      simp only [List.foldl_cons, icbStep, List.map_cons]
      rw [ih]
      simp

/-- Once the offset register is non-zero it is never overwritten. -/
lemma foldl_icbStep_snd_stable {ι β : Type} (t : Nat) (l : List (Nat × ι)) :
    ∀ (msgs : List (Msg ι β)) (off : Nat), off ≠ 0 →
      (List.foldl (icbStep t) (msgs, off) l).2 = off := by
  induction l with
  | nil => intro msgs off _; rfl
  | cons p l ih =>
      intro msgs off hoff
      simp only [List.foldl_cons, icbStep, if_neg hoff]
      exact ih _ _ hoff

/-- The offset register computed by the ICB loop fold, starting from 0, is
the first non-zero value of `(slot - 1) % 256` over the remaining slots. -/
lemma foldl_icbStep_snd {ι β : Type} (t : Nat) (l : List (Nat × ι)) :
    ∀ (msgs : List (Msg ι β)),
      (List.foldl (icbStep t) (msgs, 0) l).2 =
        firstNonzeroOffset (l.map Prod.fst) := by
  induction l with
  | nil => intro msgs; rfl
  | cons p l ih =>
      intro msgs
      simp only [List.foldl_cons, icbStep, if_pos rfl, List.map_cons,
        firstNonzeroOffset]
      by_cases h : (p.1 + 255) % 256 = 0
      · rw [h, if_pos rfl]
        exact ih _
      · rw [if_neg h]
        exact foldl_icbStep_snd_stable t l _ _ h

/-- The sequential send loop collects exactly the messages of the non-null
iterations, in index order. -/
lemma forLoop_eq_filterMap {μ : Type} (n : Nat) (body : Nat → Option μ) :
    forLoop n body = (List.range n).filterMap body := by
  unfold forLoop
  suffices h : ∀ (l : List Nat) (acc : List μ),
      l.foldl (fun acc i => match body i with
        | some m => acc ++ [m]
        | none => acc) acc = acc ++ l.filterMap body by
    simpa using h (List.range n) []
  intro l
  induction l with
  | nil => intro acc; simp
  | cons i l ih =>
      intro acc
      simp only [List.foldl_cons, List.filterMap_cons]
      cases hb : body i with
      | none => rw [ih]
      | some m => rw [ih]; simp

/-- C4 counterexample: the claim reads the offset as derived from the
lowest non-zero ICB slot.  For the store iterating slots 1 then 2, the
lowest non-zero slot is 1, so the claimed derivation (`claimOffset`) gives
offset 0; the code's offset register (`sendIcbs`) ends at 1 instead (slot 1
writes `1 - 1 = 0`, leaving the register zero, so slot 2 overwrites it
with `2 - 1 = 1`), and `writeDevice` accordingly probes VCF addresses
1–10, not 0–9. -/
theorem write_offset_counterexample :
    claimOffset [1, 2] = 0 ∧
    (sendIcbs (ι := Unit) (β := Nat) 1 [(1, ()), (2, ())]).2 = 1 ∧
    writeDevice
        ⟨[(1, ()), (2, ())], fun a => some a, fun _ => none, fun _ => none,
         fun _ => none⟩ 1 =
      [Msg.icb 1 1 (), Msg.icb 1 2 (),
       Msg.vcf 1 1 1, Msg.vcf 1 2 2, Msg.vcf 1 3 3, Msg.vcf 1 4 4,
       Msg.vcf 1 5 5, Msg.vcf 1 6 6, Msg.vcf 1 7 7, Msg.vcf 1 8 8,
       Msg.vcf 1 9 9, Msg.vcf 1 10 10] := by
  refine ⟨by decide, by decide, ?_⟩
  rfl

/-- C4 (amended): during a write transaction the address offset applied to
the block loops is the first non-zero value of `(slot - 1) % 256` seen
while iterating the store's ICBs (slots equal to 1 leave the offset
register at zero, so a later slot determines it; 0 if every slot does). -/
theorem write_offset_first_nonzero {ι β : Type} (t : Nat)
    (s : DeviceStore ι β) :
    (sendIcbs (β := β) t s.icbs).2 =
      firstNonzeroOffset (s.icbs.map Prod.fst) :=
  foldl_icbStep_snd t s.icbs []

/-- C5: a write transaction sends the store's blocks in the fixed order
ICBs, then VCF (10 addresses probed), then AMPL (20), then FREQ (20), then
WAVE (20), one framed message per populated block and nothing for an unset
(null) block. -/
theorem write_device_order {ι β : Type} (s : DeviceStore ι β) (t : Nat) :
    writeDevice s t =
      (s.icbs.map fun p => Msg.icb t p.1 p.2)
      ++ ((List.range 10).filterMap fun i =>
            (s.getVcf (vcfAddr (firstNonzeroOffset (s.icbs.map Prod.fst)) i)).map
              (Msg.vcf t (vcfAddr (firstNonzeroOffset (s.icbs.map Prod.fst)) i)))
      ++ ((List.range 20).filterMap fun i =>
            (s.getAmpl (blockAddr (firstNonzeroOffset (s.icbs.map Prod.fst)) i)).map
              (Msg.ampl t (blockAddr (firstNonzeroOffset (s.icbs.map Prod.fst)) i)))
      ++ ((List.range 20).filterMap fun i =>
            (s.getFreq (blockAddr (firstNonzeroOffset (s.icbs.map Prod.fst)) i)).map
              (Msg.freq t (blockAddr (firstNonzeroOffset (s.icbs.map Prod.fst)) i)))
      ++ ((List.range 20).filterMap fun i =>
            (s.getWave (blockAddr (firstNonzeroOffset (s.icbs.map Prod.fst)) i)).map
              (Msg.wave t (blockAddr (firstNonzeroOffset (s.icbs.map Prod.fst)) i))) := by
  simp only [writeDevice, sendIcbs]
  rw [foldl_icbStep_snd t s.icbs [], foldl_icbStep_fst t s.icbs [] 0,
    forLoop_eq_filterMap, forLoop_eq_filterMap, forLoop_eq_filterMap,
    forLoop_eq_filterMap]
  simp

/-- C9: in the write transaction's block loops, the probed device address
is `(i + offset) % 256` for indices 0–9 but `(i + offset + 1) % 256` for
indices 10–19, so the address value `(10 + offset) % 256` is skipped by the
whole 20-index loop; the VCF addresses advance by exactly one per index,
with no skip. -/
theorem block_addr_skip (offset : Nat) :
    (∀ i, i < 10 → blockAddr offset i = (i + offset) % 256) ∧
    (∀ i, 10 ≤ i → i < 20 → blockAddr offset i = (i + offset + 1) % 256) ∧
    (10 + offset) % 256 ∉ (List.range 20).map (blockAddr offset) ∧
    blockAddr offset 10 = (blockAddr offset 9 + 2) % 256 ∧
    (∀ i, vcfAddr offset i = (i + offset) % 256) ∧
    (∀ i, vcfAddr offset (i + 1) = (vcfAddr offset i + 1) % 256) := by
  have hlt : ∀ i : Nat, ¬ 10 ≤ i → blockAddr offset i = (i + offset) % 256 := by
    intro i h
    simp [blockAddr, h]
  have hge : ∀ i : Nat, 10 ≤ i → blockAddr offset i = (i + offset + 1) % 256 := by
    intro i h
    simp only [blockAddr, if_pos h]
    exact Nat.mod_add_mod (i + offset) 256 1
  refine ⟨fun i h => hlt i (by omega), fun i h _ => hge i h, ?_, ?_, ?_, ?_⟩
  · intro hmem
    rcases List.mem_map.mp hmem with ⟨i, hi, heq⟩
    have hi20 : i < 20 := List.mem_range.mp hi
    by_cases h10 : 10 ≤ i
    · rw [hge i h10] at heq
      have : i + 1 + offset ≡ 10 + offset [MOD 256] := by
        unfold Nat.ModEq
        rw [← heq]
        ring_nf
      have h2 : i + 1 ≡ 10 [MOD 256] := Nat.ModEq.add_right_cancel' offset this
      have h3 : (i + 1) % 256 = 10 % 256 := h2
      rw [Nat.mod_eq_of_lt (by omega), Nat.mod_eq_of_lt (by omega)] at h3
      omega
    · rw [hlt i h10] at heq
      have : i + offset ≡ 10 + offset [MOD 256] := heq
      have h2 : i ≡ 10 [MOD 256] := Nat.ModEq.add_right_cancel' offset this
      have h3 : i % 256 = 10 % 256 := h2
      rw [Nat.mod_eq_of_lt (by omega), Nat.mod_eq_of_lt (by omega)] at h3
      omega
  · rw [hge 10 (by omega), hlt 9 (by omega)]
    rw [Nat.mod_add_mod]
    congr 1
    omega
  · intro i; rfl
  · intro i
    unfold vcfAddr
    rw [Nat.mod_add_mod]
    congr 1
    omega

/-- Witness for C9 at offset 64 (the cartridge addressing base). -/
theorem block_addr_skip_witness :
    blockAddr 64 9 = 73 ∧ blockAddr 64 10 = 75 ∧
    (10 + 64) % 256 ∉ (List.range 20).map (blockAddr 64) ∧
    vcfAddr 64 9 = 73 := by
  have h := block_addr_skip 64
  refine ⟨?_, ?_, h.2.2.1, ?_⟩
  · rw [h.1 9 (by decide)]
  · rw [h.2.1 10 (by decide) (by decide)]
  · rw [h.2.2.2.2.1 9]

/-- If the callback approves every unit strictly before `k` and rejects
unit `k`, the accumulation loop stops right after applying the `k`-th
frame: the result is the already-applied blocks plus the frames up to the
cancellation point, each applied whole. -/
lemma readLoop_cancel_at {φ : Type} (cb : Nat → Nat → Bool) (total k : Nat)
    (hfalse : cb k total = false) :
    ∀ (rest : List φ) (done : Nat) (acc : List φ),
      done < k → k ≤ done + rest.length →
      (∀ j, done < j → j < k → cb j total = true) →
      readLoop cb total rest done acc = acc ++ rest.take (k - done) := by
  intro rest
  induction rest with
  | nil =>
      intro done acc hdk hk _
      simp at hk
      omega
  | cons f rest ih =>
      intro done acc hdk hk htrue
      simp only [readLoop]
      by_cases hdone : done + 1 = k
      · rw [hdone, hfalse]
        simp only [Bool.false_eq_true, if_false]
        have : k - done = 1 := by omega
        rw [this]
        simp
      · have hlt : done + 1 < k := by omega
        rw [htrue (done + 1) (by omega) hlt]
        simp only [if_true]
        rw [ih (done + 1) (acc ++ [f]) hlt (by simp at hk ⊢; omega)
          (fun j h1 h2 => htrue j (by omega) h2)]
        have : k - done = (k - (done + 1)) + 1 := by omega
        rw [this]
        simp

/-- C7: if the progress callback returns `false` after `k` units during a
device read (approving all earlier units), the read aborts early without
an error and the resulting store contains exactly the blocks received
before cancellation and no others: the first `k` inbound frames, each
applied whole. -/
theorem read_cancellation {φ : Type} (frames : List φ)
    (cb : Nat → Nat → Bool) (total k : Nat) (hk : 0 < k)
    (hlen : k ≤ frames.length)
    (htrue : ∀ j, 0 < j → j < k → cb j total = true)
    (hfalse : cb k total = false) :
    readFromDevice frames cb total = frames.take k := by
  unfold readFromDevice
  rw [readLoop_cancel_at cb total k hfalse frames 0 [] hk (by omega) htrue]
  simp

/-- Witness for C7: three inbound frames, a callback that approves only the
first unit; the resulting store holds exactly the first two frames. -/
theorem read_cancellation_witness :
    readFromDevice [10, 20, 30] (fun j _ => decide (j < 2)) 6180 =
      [10, 20] := by
  have h := read_cancellation [10, 20, 30] (fun j _ => decide (j < 2))
    6180 2 (by decide) (by decide)
    (by intro j h1 h2; simp; omega) (by decide)
  simpa using h

/-- Flattening a list of blocks of constant size `sz` yields
`count * sz` bytes. -/
lemma flatten_length_const {sz : Nat} :
    ∀ (l : List (List Nat)), (∀ b ∈ l, b.length = sz) →
      l.flatten.length = l.length * sz := by
  intro l
  induction l with
  | nil => intro _; simp
  | cons b l ih =>
      intro h
      simp only [List.flatten_cons, List.length_append, List.length_cons]
      rw [h b (by simp), ih (fun x hx => h x (by simp [hx]))]
      ring

/-- Chunking undoes flattening for blocks of constant size `sz`. -/
lemma chunks_flatten (sz : Nat) :
    ∀ (l : List (List Nat)), (∀ b ∈ l, b.length = sz) →
      chunks sz l.length l.flatten = l := by
  intro l
  induction l with
  | nil => intro _; rfl
  | cons b l ih =>
      intro h
      have hb : b.length = sz := h b (by simp)
      simp only [List.flatten_cons, List.length_cons, chunks]
      rw [List.take_left' hb, List.drop_left' hb,
        ih (fun x hx => h x (by simp [hx]))]

/-- A valid ICB serialises to 9 bytes. -/
lemma encodeIcb_length (i : Icb) (h : i.name.length = 6) :
    (encodeIcb i).length = 9 := by
  simp [encodeIcb, h]

/-- Parsing undoes serialisation for one valid ICB. -/
lemma decodeIcb_encodeIcb (i : Icb) (h : i.name.length = 6) :
    decodeIcb (encodeIcb i) = i := by
  obtain ⟨n, a, f, w⟩ := i
  simp only [encodeIcb] at *
  simp only [decodeIcb, Icb.mk.injEq]
  refine ⟨List.take_left' h, ?_, ?_, ?_⟩ <;>
    · rw [List.getD_append_right _ _ _ _ (by omega), h]
      rfl

/-- C3: for every valid instrument store producible by the codec, decoding
the encoding yields a store equal to the original in all ICB names, block
references, and block contents. -/
theorem decode_encode_roundtrip (s : CartStore) (h : ValidStore s) :
    decode (encode s) = .ok s := by
  obtain ⟨icbs, ampls, freqs, waves⟩ := s
  obtain ⟨hlen, hicbs, ⟨hA1, hA2⟩, ⟨hF1, hF2⟩, ⟨hW1, hW2⟩⟩ := h
  simp only at hlen hicbs hA1 hA2 hF1 hF2 hW1 hW2
  have hnames : ∀ i ∈ icbs, i.name.length = 6 := fun i hi => (hicbs i hi).1
  have hmapElts : ∀ b ∈ icbs.map encodeIcb, b.length = 9 := by
    intro b hb
    rcases List.mem_map.mp hb with ⟨i, hi, rfl⟩
    exact encodeIcb_length i (hnames i hi)
  have hicbBlen : (encodeIcbs icbs).length = 90 := by
    unfold encodeIcbs
    rw [flatten_length_const _ hmapElts]
    simp [hlen]
  have hamplLens : ∀ b ∈ ampls, b.length = 4 := fun b hb => (hA2 b hb).1
  have hfreqLens : ∀ b ∈ freqs, b.length = 4 := fun b hb => (hF2 b hb).1
  have hwaveLens : ∀ b ∈ waves, b.length = 8 := fun b hb => (hW2 b hb).1
  have hampllen : ampls.flatten.length = 40 := by
    rw [flatten_length_const _ hamplLens, hA1]
  have hfreqlen : freqs.flatten.length = 40 := by
    rw [flatten_length_const _ hfreqLens, hF1]
  have hwavelen : waves.flatten.length = 80 := by
    rw [flatten_length_const _ hwaveLens, hW1]
  set S : CartStore := ⟨icbs, ampls, freqs, waves⟩ with hS
  have hpaylen : (encodePayload S).length = 250 := by
    simp only [encodePayload, List.length_append, hS]
    rw [hicbBlen, hampllen, hfreqlen, hwavelen]
  have hc : encode S =
      encodeIcbs icbs ++ (ampls.flatten ++ (freqs.flatten ++
        (waves.flatten ++ [(encodePayload S).sum % 256]))) := by
    simp [encode, encodePayload, List.append_assoc, hS]
  have hblen : (encode S).length = 251 := by
    simp [encode, hpaylen]
  have e1 : (encode S).take 90 = encodeIcbs icbs := by
    rw [hc]; exact List.take_left' hicbBlen
  have e2 : (encode S).drop 90 = ampls.flatten ++ (freqs.flatten ++
      (waves.flatten ++ [(encodePayload S).sum % 256])) := by
    rw [hc]; exact List.drop_left' hicbBlen
  have e3 : ((encode S).drop 90).take 40 = ampls.flatten := by
    rw [e2]; exact List.take_left' hampllen
  have e4 : ((encode S).drop 90).drop 40 = freqs.flatten ++
      (waves.flatten ++ [(encodePayload S).sum % 256]) := by
    rw [e2]; exact List.drop_left' hampllen
  have e5 : (((encode S).drop 90).drop 40).take 40 = freqs.flatten := by
    rw [e4]; exact List.take_left' hfreqlen
  have e6 : (((encode S).drop 90).drop 40).drop 40 = waves.flatten ++
      [(encodePayload S).sum % 256] := by
    rw [e4]; exact List.drop_left' hfreqlen
  have e7 : ((((encode S).drop 90).drop 40).drop 40).take 80 =
      waves.flatten := by
    rw [e6]; exact List.take_left' hwavelen
  have hm1 : imageSize - 1 = 250 := by decide
  have etake : (encode S).take (imageSize - 1) = encodePayload S := by
    rw [hm1]
    unfold encode
    exact List.take_left' hpaylen
  have edrop : (encode S).drop (imageSize - 1) =
      [(encodePayload S).sum % 256] := by
    rw [hm1]
    unfold encode
    exact List.drop_left' hpaylen
  have d1 : (chunks 9 10 (encodeIcbs icbs)).map decodeIcb = icbs := by
    have hml : (icbs.map encodeIcb).length = 10 := by simp [hlen]
    unfold encodeIcbs
    rw [← hml, chunks_flatten 9 _ hmapElts, List.map_map]
    have hcong : ∀ i ∈ icbs, (decodeIcb ∘ encodeIcb) i = id i :=
      fun i hi => decodeIcb_encodeIcb i (hnames i hi)
    rw [List.map_congr_left hcong, List.map_id]
  have d2 : chunks 4 10 ampls.flatten = ampls := by
    rw [← hA1]; exact chunks_flatten 4 _ hamplLens
  have d3 : chunks 4 10 freqs.flatten = freqs := by
    rw [← hF1]; exact chunks_flatten 4 _ hfreqLens
  have d4 : chunks 8 10 waves.flatten = waves := by
    rw [← hW1]; exact chunks_flatten 8 _ hwaveLens
  unfold decode
  rw [if_pos (by rw [hblen]; decide),
    if_pos (by rw [etake, edrop]; rfl)]
  rw [e1, e3, e5, e7, d1, d2, d3, d4]

/-- Witness for C3: a concrete valid store round-trips through the codec. -/
theorem decode_encode_roundtrip_witness :
    ValidStore
      ⟨List.replicate 10 ⟨[68, 77, 83, 32, 32, 32], 1, 2, 3⟩,
       List.replicate 10 [1, 2, 3, 4], List.replicate 10 [5, 6, 7, 8],
       List.replicate 10 [1, 2, 3, 4, 5, 6, 7, 8]⟩ ∧
    decode (encode
      ⟨List.replicate 10 ⟨[68, 77, 83, 32, 32, 32], 1, 2, 3⟩,
       List.replicate 10 [1, 2, 3, 4], List.replicate 10 [5, 6, 7, 8],
       List.replicate 10 [1, 2, 3, 4, 5, 6, 7, 8]⟩) =
      .ok
      ⟨List.replicate 10 ⟨[68, 77, 83, 32, 32, 32], 1, 2, 3⟩,
       List.replicate 10 [1, 2, 3, 4], List.replicate 10 [5, 6, 7, 8],
       List.replicate 10 [1, 2, 3, 4, 5, 6, 7, 8]⟩ :=
  ⟨by decide,
   decode_encode_roundtrip
     ⟨List.replicate 10 ⟨[68, 77, 83, 32, 32, 32], 1, 2, 3⟩,
      List.replicate 10 [1, 2, 3, 4], List.replicate 10 [5, 6, 7, 8],
      List.replicate 10 [1, 2, 3, 4, 5, 6, 7, 8]⟩ (by decide)⟩

end DMSToolbox
